import Mathlib

/-!
Shallow embedding of the AC power monitor (src/power_monitor.h,
src/power_monitor.cpp).  C++ `float`/`double` values are modelled as `ℚ`,
ADC readings as `ℤ`, millisecond timestamps as `ℕ` (the monotonic clock is
assumed not to wrap, so `unsigned long` subtraction is `Nat` subtraction),
and the `uint8_t` consecutive-valid counter as `ℕ` (the loops that feed it
run at most 50 iterations, far below the 256 wrap point).  Each call to
`millis()` and each batch of `analogRead` results is an explicit input of
the cycle.  `sqrt` has no exact rational counterpart, so the pipeline is
parametrised by an arbitrary function `sqrtQ : ℚ → ℚ`; no claim below
depends on its value.  Debug-only quantities of the source (`Serial`
prints, `min_val`/`max_val` in the reset routine, the dead `sum_raw`
accumulator and the dead `_voltage_dc` field) are omitted.
-/

namespace PowerMonitor

/-! ### Constants from src/power_monitor.h -/

def ADC_SCALE : ℚ := 80566 / 100000000
def CURRENT_BURDEN : ℚ := 10
def CT_TURNS : ℚ := 1000
def ICAL : ℚ := 963 / 1000
def SAMPLES_PER_CYCLE : ℕ := 1480
def OFFSET_SAMPLES : ℕ := 100
def FAST_FILTER : ℚ := 50 / 100
def SLOW_FILTER : ℚ := 2 / 100
def MIN_SQUARED_ADC : ℚ := 100
def MIN_VALID_SAMPLES : ℕ := 200
def MIN_PEAK_TO_PEAK : ℚ := 40
def MIN_PCT_VALID_SAMPLES : ℕ := 15
def SMOOTHING_FACTOR : ℚ := 95 / 100
def CT_DISCONNECT_THRESHOLD : ℚ := 4000
def CT_STATE_DEBOUNCE : ℕ := 5000
def CT_HYSTERESIS : ℚ := 2000
def MIN_VALID_ADC : ℤ := 400
def MAX_VALID_ADC : ℤ := 3600
def MIN_VALID_COUNT : ℕ := 5
def WH_TO_KWH : ℚ := 1 / 1000
def THREE_PHASE_FACTOR : ℚ := 1732 / 1000
def PRE_SAMPLES : ℕ := 20
def RESET_SAMPLES : ℕ := 50
def VOLTAGE_SAMPLES : ℕ := 100

/-! ### State (the private fields of class PowerMonitor) -/

structure PMState where
  phase_count : ℕ
  voltage_ac : ℚ
  current_ac : ℚ
  last_current : ℚ
  filtered_offset : ℚ
  fast_offset : ℚ
  last_valid_current : ℚ
  power_w : ℚ
  energy_kwh : ℚ
  last_energy_update : ℕ
  last_valid_time : ℕ
  ct_connected : Bool
  in_reconnect : Bool
  last_ct_state_change : ℕ
  valid_reading_count : ℕ
  deriving Repr, DecidableEq

/-- Constructor `PowerMonitor::PowerMonitor` (pins omitted; a phase count
other than 3 is normalised to 1, per the initialiser list). -/
def initState (phase_count : ℕ) : PMState :=
  { phase_count := if phase_count = 3 then 3 else 1
    voltage_ac := 0
    current_ac := 0
    last_current := 0
    filtered_offset := 1880
    fast_offset := 1880
    last_valid_current := 0
    power_w := 0
    energy_kwh := 0
    last_energy_update := 0
    last_valid_time := 0
    ct_connected := true
    in_reconnect := false
    last_ct_state_change := 0
    valid_reading_count := 0 }

/-! ### Per-cycle inputs: ADC sample batches and millis() readings -/

structure CycleInput where
  preSamples : List ℤ
  resetSamples : List ℤ
  offsetSamples : List ℤ
  mainSamples : List ℤ
  tState : ℕ
  tValid : ℕ
  tEnergy : ℕ
  deriving Repr

/-! ### PowerMonitor::validateReading and the consecutive-valid counter -/

def validateReading (adc_value : ℤ) : Bool :=
  decide (MIN_VALID_ADC ≤ adc_value ∧ adc_value ≤ MAX_VALID_ADC)

/-- One iteration of the `_valid_reading_count` update: increment on a valid
reading, reset to zero on an invalid one. -/
def tailValidStep (c : ℕ) (v : ℤ) : ℕ :=
  if validateReading v then c + 1 else 0

/-- Value of `_valid_reading_count` after scanning a batch, starting from 0
(the code zeroes the counter before each scan). -/
def tailValidCount (xs : List ℤ) : ℕ :=
  xs.foldl tailValidStep 0

/-! ### PowerMonitor::checkCTStateChange -/

/-- The debounced state-change test; true exactly when the requested state
differs from the current one and the debounce interval has elapsed.  When it
returns true the code also stamps `_last_ct_state_change`, which the cycle
function below performs at the use site. -/
def ctStateChangeOK (s : PMState) (new_state : Bool) (now : ℕ) : Bool :=
  (new_state != s.ct_connected) && decide (CT_STATE_DEBOUNCE < now - s.last_ct_state_change)

/-! ### PowerMonitor::resetOffsetFilters -/

/-- The batch average `quick_offset = sum / 50` of the reset routine. -/
def resetQuickOffset (samples : List ℤ) : ℚ :=
  (samples.sum : ℚ) / (RESET_SAMPLES : ℚ)

def resetOffsetFilters (s : PMState) (samples : List ℤ) : PMState :=
  let cnt := tailValidCount samples
  let quick_offset := resetQuickOffset samples
  if 1500 ≤ quick_offset ∧ quick_offset ≤ 2500 ∧ MIN_VALID_COUNT ≤ cnt then
    { s with filtered_offset := quick_offset, fast_offset := quick_offset,
             in_reconnect := true, ct_connected := true, valid_reading_count := cnt }
  else
    { s with ct_connected := false, valid_reading_count := cnt }

/-! ### The disconnect pre-check of PowerMonitor::calculateCurrent -/

/-- Average of the 20-sample pre-check batch (`quick_check`). -/
def quickCheck (pre : List ℤ) : ℚ :=
  (pre.sum : ℚ) / (PRE_SAMPLES : ℚ)

/-- Hysteresis: the threshold is `CT_DISCONNECT_THRESHOLD` while connected
and `CT_DISCONNECT_THRESHOLD - CT_HYSTERESIS` while disconnected. -/
def disconnectThreshold (connected : Bool) : ℚ :=
  if connected then CT_DISCONNECT_THRESHOLD else CT_DISCONNECT_THRESHOLD - CT_HYSTERESIS

def possibleDisconnect (connected : Bool) (qc off : ℚ) (cnt : ℕ) : Bool :=
  decide (disconnectThreshold connected < |qc - off|) || decide (cnt < MIN_VALID_COUNT)

/-- Outcome of the pre-check section of `calculateCurrent`: an early return
through the disconnect branch, an early return through the reconnect branch,
or continuation into the measurement body. -/
inductive PreAction where
  | disconnect
  | reconnect
  | proceed
  deriving Repr, DecidableEq

def preAction (s : PMState) (inp : CycleInput) : PreAction :=
  let qc := quickCheck inp.preSamples
  let cnt := tailValidCount inp.preSamples
  let pd := possibleDisconnect s.ct_connected qc s.filtered_offset cnt
  if pd && ctStateChangeOK s false inp.tState then .disconnect
  else if !pd && !s.ct_connected && ctStateChangeOK s true inp.tState then .reconnect
  else .proceed

/-! ### Offset filtering and the main sampling loop -/

/-- Filter update for `(_fast_offset, _filtered_offset)`: reconnect blend
(0.5/0.5 and 0.8/0.2) versus steady blend (`FAST_FILTER`, `SLOW_FILTER`). -/
def updateOffsetFilters (in_reconnect : Bool) (fast filt current_offset : ℚ) : ℚ × ℚ :=
  if in_reconnect then
    (fast * (1/2) + current_offset * (1/2), filt * (8/10) + current_offset * (2/10))
  else
    (fast * (1 - FAST_FILTER) + current_offset * FAST_FILTER,
     filt * (1 - SLOW_FILTER) + current_offset * SLOW_FILTER)

/-- `effective_offset = fast*0.3 + filtered*0.7`. -/
def effectiveBlend (fast filt : ℚ) : ℚ :=
  fast * (3/10) + filt * (7/10)

/-- The effective offset a cycle that reaches the measurement body will use,
as a function of the incoming state and the offset-calibration batch. -/
def cycleEffectiveOffset (s : PMState) (inp : CycleInput) : ℚ :=
  let current_offset : ℚ := (inp.offsetSamples.sum : ℚ) / (OFFSET_SAMPLES : ℚ)
  let fo := updateOffsetFilters s.in_reconnect s.fast_offset s.filtered_offset current_offset
  effectiveBlend fo.1 fo.2

/-- Accumulator of the main sampling loop. -/
structure CycleAcc where
  sum_squared : ℚ
  valid_samples : ℕ
  samples_taken : ℕ
  raw_max : ℤ
  raw_min : ℤ
  deriving Repr, DecidableEq

/-- One iteration of the main sampling loop: track min/max, always count the
sample, and accumulate the squared deviation only when it exceeds
`MIN_SQUARED_ADC`. -/
def cycleStep (eff : ℚ) (a : CycleAcc) (raw : ℤ) : CycleAcc :=
  let rmax := max a.raw_max raw
  let rmin := min a.raw_min raw
  let centered : ℚ := (raw : ℚ) - eff
  let squared := centered * centered
  if MIN_SQUARED_ADC < squared then
    { sum_squared := a.sum_squared + squared, valid_samples := a.valid_samples + 1,
      samples_taken := a.samples_taken + 1, raw_max := rmax, raw_min := rmin }
  else
    { a with samples_taken := a.samples_taken + 1, raw_max := rmax, raw_min := rmin }

/-- `raw_max` after the pre-check loop (initialised to 0 before it). -/
def preMax (pre : List ℤ) : ℤ := pre.foldl max 0

/-- `raw_min` after the pre-check loop (initialised to 4095 before it). -/
def preMin (pre : List ℤ) : ℤ := pre.foldl min 4095

def runCycleLoop (eff : ℚ) (rmax0 rmin0 : ℤ) (xs : List ℤ) : CycleAcc :=
  xs.foldl (cycleStep eff) ⟨0, 0, 0, rmax0, rmin0⟩

/-- Signal validation: enough strong samples, enough peak-to-peak swing, and
a high enough integer percentage of strong samples. -/
def validSignal (acc : CycleAcc) : Bool :=
  decide (MIN_VALID_SAMPLES ≤ acc.valid_samples) &&
  decide (MIN_PEAK_TO_PEAK ≤ ((acc.raw_max - acc.raw_min : ℤ) : ℚ)) &&
  decide (MIN_PCT_VALID_SAMPLES ≤ acc.valid_samples * 100 / acc.samples_taken)

/-- The main-loop accumulator a cycle computes: fold over the main batch
with min/max seeded by the pre-check batch. -/
def cycleLoopAcc (s : PMState) (inp : CycleInput) : CycleAcc :=
  runCycleLoop (cycleEffectiveOffset s inp) (preMax inp.preSamples) (preMin inp.preSamples)
    inp.mainSamples

/-- Unsmoothed current of a validated cycle:
`sqrt(sum_squared/samples_taken) * ADC_SCALE / CURRENT_BURDEN * CT_TURNS * ICAL`. -/
def newCurrentFrom (sqrtQ : ℚ → ℚ) (sum_squared : ℚ) (samples_taken : ℕ) : ℚ :=
  let rms_adc := sqrtQ (sum_squared / (samples_taken : ℚ))
  let rms_voltage := rms_adc * ADC_SCALE
  let secondary_current := rms_voltage / CURRENT_BURDEN
  secondary_current * CT_TURNS * ICAL

/-- Exponential blend of the new reading into `_current_ac`: coefficients
0.98/0.02 during reconnect, `SMOOTHING_FACTOR`/(1 − `SMOOTHING_FACTOR`)
otherwise. -/
def smoothCurrent (in_reconnect : Bool) (last_current new_current : ℚ) : ℚ :=
  if in_reconnect then
    last_current * (98/100) + new_current * (2/100)
  else
    last_current * SMOOTHING_FACTOR + new_current * (1 - SMOOTHING_FACTOR)

/-! ### PowerMonitor::updateEnergy -/

/-- The power recomputation `power_w = phaseFactor * voltage_ac * current_ac`. -/
def powerOf (s : PMState) : ℚ :=
  if s.phase_count = 3 then THREE_PHASE_FACTOR * s.voltage_ac * s.current_ac
  else s.voltage_ac * s.current_ac

def updateEnergy (s : PMState) (now : ℕ) : PMState :=
  let elapsed_hours : ℚ := ((now - s.last_energy_update : ℕ) : ℚ) / 3600000
  let power_w := powerOf s
  { s with power_w := power_w,
           energy_kwh := s.energy_kwh + power_w * elapsed_hours * WH_TO_KWH,
           last_energy_update := now }

/-! ### PowerMonitor::calculateCurrent -/

/-- Body of `calculateCurrent` past the pre-check, up to (but not
including) the final `updateEnergy()` call: offset filter update, the main
sampling loop, signal validation and current smoothing.  Note the
reconnect-transient exit test `++samples_taken > 50`, which reuses the
sample counter of the cycle that just completed. -/
def proceedBody (sqrtQ : ℚ → ℚ) (s : PMState) (inp : CycleInput) : PMState :=
  let current_offset : ℚ := (inp.offsetSamples.sum : ℚ) / (OFFSET_SAMPLES : ℚ)
  let fo := updateOffsetFilters s.in_reconnect s.fast_offset s.filtered_offset current_offset
  let acc := cycleLoopAcc s inp
  let s1 := { s with valid_reading_count := tailValidCount inp.preSamples,
                     fast_offset := fo.1, filtered_offset := fo.2 }
  if s.ct_connected && validSignal acc then
    let new_current := newCurrentFrom sqrtQ acc.sum_squared acc.samples_taken
    let cur := smoothCurrent s.in_reconnect s.last_current new_current
    let in_rec := if s.in_reconnect && decide (50 < acc.samples_taken + 1) then false
                  else s.in_reconnect
    { s1 with current_ac := cur, last_current := cur, last_valid_current := new_current,
              last_valid_time := inp.tValid, in_reconnect := in_rec }
  else
    { s1 with current_ac := 0, last_current := 0, last_valid_current := 0 }

def calculateCurrent (sqrtQ : ℚ → ℚ) (s : PMState) (inp : CycleInput) : PMState :=
  let cnt := tailValidCount inp.preSamples
  let s0 := { s with valid_reading_count := cnt }
  match preAction s inp with
  | .disconnect =>
      { s0 with last_ct_state_change := inp.tState, ct_connected := false,
                current_ac := 0, last_current := 0, last_valid_current := 0,
                in_reconnect := false }
  | .reconnect =>
      resetOffsetFilters { s0 with last_ct_state_change := inp.tState } inp.resetSamples
  | .proceed =>
      updateEnergy (proceedBody sqrtQ s inp) inp.tEnergy

/-! ### PowerMonitor::sampleVoltage and PowerMonitor::update -/

def sampleVoltage (s : PMState) (vsamples : List ℕ) : PMState :=
  let base_voltage : ℚ := ((vsamples.sum / VOLTAGE_SAMPLES : ℕ) : ℚ) * ADC_SCALE * (10170 / 100)
  { s with voltage_ac := if s.phase_count = 3 then base_voltage * THREE_PHASE_FACTOR
                         else base_voltage }

def update (sqrtQ : ℚ → ℚ) (s : PMState) (vsamples : List ℕ) (inp : CycleInput) : PMState :=
  calculateCurrent sqrtQ (sampleVoltage s vsamples) inp

/-! ### Public read accessors -/

def getVoltageAC (s : PMState) : ℚ := s.voltage_ac
def getCurrentAC (s : PMState) : ℚ := s.current_ac
def getPowerW (s : PMState) : ℚ := s.power_w
def getEnergyKWh (s : PMState) : ℚ := s.energy_kwh

/-- The complete list of public members of class PowerMonitor, as declared
in src/power_monitor.h lines 49-58. -/
def publicMembers : List String :=
  ["PowerMonitor", "begin", "update", "getVoltageAC", "getCurrentAC", "getPowerW",
   "getEnergyKWh", "getEnergyMWh", "isAboveMWhThreshold", "getPhaseCount"]

/-! ### Concrete scenarios used by individual claims -/

/-- A freshly reconnected monitor: offsets settled at 2000 ADC counts and
the reconnect transient active (as `resetOffsetFilters` leaves it). -/
def c1State : PMState :=
  { initState 1 with filtered_offset := 2000, fast_offset := 2000, in_reconnect := true }

/-- One fully validated measurement cycle: a clean pre-check at the offset
and a 1480-sample square-wave batch swinging 1900/2100 around it. -/
def c1Input : CycleInput :=
  { preSamples := List.replicate 20 2000
    resetSamples := []
    offsetSamples := List.replicate 100 2000
    mainSamples := List.replicate 740 1900 ++ List.replicate 740 2100
    tState := 0
    tValid := 42
    tEnergy := 0 }

/-- A connected monitor with a nonzero stale `power_w` and an energy
timestamp of 7 ms. -/
def c5State : PMState :=
  { initState 1 with last_energy_update := 7, power_w := 5 }

def c5Volt : List ℕ := List.replicate 100 0

/-- A cycle whose pre-check sees a stuck-low sensor (all readings 0, hence
individually invalid) after the debounce interval has elapsed. -/
def c5Input : CycleInput :=
  { preSamples := List.replicate 20 0
    resetSamples := []
    offsetSamples := []
    mainSamples := []
    tState := 6000
    tValid := 0
    tEnergy := 9999 }

/-- A steady connected state used by the C5 witness. -/
def c5wState : PMState := initState 1

def c5wVolt : List ℕ := List.replicate 100 0

/-- A quiet cycle at the initial offset 1880: the pre-check passes, the main
batch is flat, and the cycle runs through to the energy update. -/
def c5wInput : CycleInput :=
  { preSamples := List.replicate 20 1880
    resetSamples := []
    offsetSamples := List.replicate 100 1880
    mainSamples := List.replicate 1480 1880
    tState := 0
    tValid := 0
    tEnergy := 777 }

/-- State used by the C7 witness: 2 V times 3 A on a single phase. -/
def c7State : PMState :=
  { initState 1 with voltage_ac := 2, current_ac := 3, last_energy_update := 100 }

/-- A disconnected state with zeroed current, as the disconnect branch
leaves it; used by the C4 witness. -/
def c4State : PMState :=
  { initState 1 with ct_connected := false, current_ac := 0, last_current := 0 }

/-- An arbitrary follow-up cycle for the C4 witness (stuck-low pre-check,
debounce not yet elapsed, so the monitor stays disconnected). -/
def c4Input : CycleInput :=
  { preSamples := List.replicate 20 0
    resetSamples := []
    offsetSamples := []
    mainSamples := []
    tState := 0
    tValid := 0
    tEnergy := 0 }

/-- Monitor with both offset filters at 2000, used by the C8 witness. -/
def c8State : PMState :=
  { initState 1 with filtered_offset := 2000, fast_offset := 2000 }

/-- A perfectly flat cycle: every sample of every batch reads exactly the
offset value 2000. -/
def c8Input : CycleInput :=
  { preSamples := List.replicate 20 2000
    resetSamples := []
    offsetSamples := List.replicate 100 2000
    mainSamples := List.replicate 1480 2000
    tState := 0
    tValid := 0
    tEnergy := 0 }

/-- The 50-sample recalibration batch used by the C6 witness: all readings
at mid-scale 2000. -/
def c6Samples : List ℤ := List.replicate 50 2000

/-- Pre-check batch for the C10 witness. -/
def c10Pre : List ℤ := List.replicate 20 2000

/-! ### Helper lemmas: evaluating the folds of the sampling loops -/

theorem sum_replicate_int (n : ℕ) (a : ℤ) : (List.replicate n a).sum = n * a := by
  rw [List.sum_replicate, nsmul_eq_mul]

theorem foldl_tailValidStep_replicate_valid (a : ℤ) (h : validateReading a = true) :
    ∀ (n : ℕ) (c : ℕ), (List.replicate n a).foldl tailValidStep c = c + n := by
  intro n
  induction n with
  | zero => intro c; simp
  | succ m ih =>
      intro c
      rw [List.replicate_succ, List.foldl_cons, ih]
      simp [tailValidStep, h]
      omega

theorem tailValidCount_replicate_valid (a : ℤ) (n : ℕ) (h : validateReading a = true) :
    tailValidCount (List.replicate n a) = n := by
  unfold tailValidCount
  rw [foldl_tailValidStep_replicate_valid a h n 0, Nat.zero_add]

theorem foldl_tailValidStep_replicate_invalid (a : ℤ) (h : validateReading a = false) :
    ∀ (n : ℕ) (c : ℕ), (List.replicate (n + 1) a).foldl tailValidStep c = 0 := by
  intro n
  induction n with
  | zero => intro c; simp [tailValidStep, h]
  | succ m ih =>
      intro c
      rw [List.replicate_succ, List.foldl_cons]
      exact ih _

theorem tailValidCount_replicate_invalid (a : ℤ) (n : ℕ) (h : validateReading a = false) :
    tailValidCount (List.replicate (n + 1) a) = 0 :=
  foldl_tailValidStep_replicate_invalid a h n 0

theorem foldl_max_replicate (a i : ℤ) :
    ∀ (n : ℕ), (List.replicate (n + 1) a).foldl max i = max i a := by
  intro n
  induction n generalizing i with
  | zero => simp
  | succ m ih =>
      rw [List.replicate_succ, List.foldl_cons, ih]
      rw [max_assoc, max_self]

theorem foldl_min_replicate (a i : ℤ) :
    ∀ (n : ℕ), (List.replicate (n + 1) a).foldl min i = min i a := by
  intro n
  induction n generalizing i with
  | zero => simp
  | succ m ih =>
      rw [List.replicate_succ, List.foldl_cons, ih]
      rw [min_assoc, min_self]

theorem foldl_cycleStep_replicate_strong (eff : ℚ) (a : ℤ)
    (h : MIN_SQUARED_ADC < ((a : ℚ) - eff) * ((a : ℚ) - eff)) :
    ∀ (n : ℕ) (acc : CycleAcc),
      (List.replicate (n + 1) a).foldl (cycleStep eff) acc =
        { sum_squared := acc.sum_squared + (n + 1) * (((a : ℚ) - eff) * ((a : ℚ) - eff)),
          valid_samples := acc.valid_samples + (n + 1),
          samples_taken := acc.samples_taken + (n + 1),
          raw_max := max acc.raw_max a, raw_min := min acc.raw_min a } := by
  intro n
  induction n with
  | zero =>
      intro acc
      simp [cycleStep, h]
  | succ m ih =>
      intro acc
      rw [List.replicate_succ, List.foldl_cons, ih]
      simp only [cycleStep, h, if_pos, CycleAcc.mk.injEq]
      refine ⟨by push_cast; ring, by omega, by omega, ?_, ?_⟩
      · rw [max_assoc, max_self]
      · rw [min_assoc, min_self]

theorem cycleLoop_valid_of_flat (eff : ℚ) :
    ∀ (xs : List ℤ) (acc : CycleAcc),
      (∀ x ∈ xs, ((x : ℚ) - eff) * ((x : ℚ) - eff) ≤ MIN_SQUARED_ADC) →
      (xs.foldl (cycleStep eff) acc).valid_samples = acc.valid_samples := by
  intro xs
  induction xs with
  | nil => intro acc _; simp
  | cons y ys ih =>
      intro acc h
      rw [List.foldl_cons, ih _ (fun x hx => h x (List.mem_cons_of_mem y hx))]
      have hy := h y (List.mem_cons_self y ys)
      simp [cycleStep, not_lt.mpr hy]

/-! ### Helper lemmas: field bookkeeping of the state transformers -/

@[simp] theorem updateEnergy_last_energy_update (s : PMState) (t : ℕ) :
    (updateEnergy s t).last_energy_update = t := rfl

@[simp] theorem updateEnergy_energy_kwh (s : PMState) (t : ℕ) :
    (updateEnergy s t).energy_kwh =
      s.energy_kwh + powerOf s * ((t - s.last_energy_update : ℕ) : ℚ) / 3600000 * WH_TO_KWH := by
  unfold updateEnergy
  ring

@[simp] theorem updateEnergy_power_w (s : PMState) (t : ℕ) :
    (updateEnergy s t).power_w = powerOf s := rfl

@[simp] theorem updateEnergy_current_ac (s : PMState) (t : ℕ) :
    (updateEnergy s t).current_ac = s.current_ac := rfl

@[simp] theorem updateEnergy_last_current (s : PMState) (t : ℕ) :
    (updateEnergy s t).last_current = s.last_current := rfl

@[simp] theorem updateEnergy_ct_connected (s : PMState) (t : ℕ) :
    (updateEnergy s t).ct_connected = s.ct_connected := rfl

@[simp] theorem updateEnergy_in_reconnect (s : PMState) (t : ℕ) :
    (updateEnergy s t).in_reconnect = s.in_reconnect := rfl

@[simp] theorem updateEnergy_last_valid_time (s : PMState) (t : ℕ) :
    (updateEnergy s t).last_valid_time = s.last_valid_time := rfl

@[simp] theorem updateEnergy_voltage_ac (s : PMState) (t : ℕ) :
    (updateEnergy s t).voltage_ac = s.voltage_ac := rfl

@[simp] theorem updateEnergy_phase_count (s : PMState) (t : ℕ) :
    (updateEnergy s t).phase_count = s.phase_count := rfl

@[simp] theorem powerOf_updateEnergy (s : PMState) (t : ℕ) :
    powerOf (updateEnergy s t) = powerOf s := rfl

@[simp] theorem sampleVoltage_ct_connected (s : PMState) (vs : List ℕ) :
    (sampleVoltage s vs).ct_connected = s.ct_connected := rfl

@[simp] theorem sampleVoltage_energy_kwh (s : PMState) (vs : List ℕ) :
    (sampleVoltage s vs).energy_kwh = s.energy_kwh := rfl

@[simp] theorem sampleVoltage_last_energy_update (s : PMState) (vs : List ℕ) :
    (sampleVoltage s vs).last_energy_update = s.last_energy_update := rfl

@[simp] theorem sampleVoltage_power_w (s : PMState) (vs : List ℕ) :
    (sampleVoltage s vs).power_w = s.power_w := rfl

@[simp] theorem sampleVoltage_current_ac (s : PMState) (vs : List ℕ) :
    (sampleVoltage s vs).current_ac = s.current_ac := rfl

@[simp] theorem sampleVoltage_last_current (s : PMState) (vs : List ℕ) :
    (sampleVoltage s vs).last_current = s.last_current := rfl

@[simp] theorem preAction_sampleVoltage (s : PMState) (vs : List ℕ) (inp : CycleInput) :
    preAction (sampleVoltage s vs) inp = preAction s inp := rfl

theorem resetOffsetFilters_energy_kwh (s : PMState) (xs : List ℤ) :
    (resetOffsetFilters s xs).energy_kwh = s.energy_kwh := by
  unfold resetOffsetFilters; dsimp only; split <;> rfl

theorem resetOffsetFilters_last_energy_update (s : PMState) (xs : List ℤ) :
    (resetOffsetFilters s xs).last_energy_update = s.last_energy_update := by
  unfold resetOffsetFilters; dsimp only; split <;> rfl

theorem resetOffsetFilters_power_w (s : PMState) (xs : List ℤ) :
    (resetOffsetFilters s xs).power_w = s.power_w := by
  unfold resetOffsetFilters; dsimp only; split <;> rfl

theorem resetOffsetFilters_current_ac (s : PMState) (xs : List ℤ) :
    (resetOffsetFilters s xs).current_ac = s.current_ac := by
  unfold resetOffsetFilters; dsimp only; split <;> rfl

theorem resetOffsetFilters_last_current (s : PMState) (xs : List ℤ) :
    (resetOffsetFilters s xs).last_current = s.last_current := by
  unfold resetOffsetFilters; dsimp only; split <;> rfl

theorem proceedBody_energy_kwh (sq : ℚ → ℚ) (s : PMState) (inp : CycleInput) :
    (proceedBody sq s inp).energy_kwh = s.energy_kwh := by
  unfold proceedBody; dsimp only; split <;> rfl

theorem proceedBody_last_energy_update (sq : ℚ → ℚ) (s : PMState) (inp : CycleInput) :
    (proceedBody sq s inp).last_energy_update = s.last_energy_update := by
  unfold proceedBody; dsimp only; split <;> rfl

theorem proceedBody_ct_connected (sq : ℚ → ℚ) (s : PMState) (inp : CycleInput) :
    (proceedBody sq s inp).ct_connected = s.ct_connected := by
  unfold proceedBody; dsimp only; split <;> rfl

theorem proceedBody_zero_of_disconnected (sq : ℚ → ℚ) (s : PMState) (inp : CycleInput)
    (h : s.ct_connected = false) :
    (proceedBody sq s inp).current_ac = 0 ∧ (proceedBody sq s inp).last_current = 0 := by
  unfold proceedBody
  simp [h]

theorem proceedBody_zero_of_invalid (sq : ℚ → ℚ) (s : PMState) (inp : CycleInput)
    (h : validSignal (cycleLoopAcc s inp) = false) :
    (proceedBody sq s inp).current_ac = 0 ∧ (proceedBody sq s inp).last_current = 0 := by
  unfold proceedBody
  dsimp only
  rw [h]
  simp

theorem proceedBody_valid_branch (sq : ℚ → ℚ) (s : PMState) (inp : CycleInput)
    (hct : s.ct_connected = true) (hvs : validSignal (cycleLoopAcc s inp) = true) :
    (proceedBody sq s inp).last_valid_time = inp.tValid ∧
    (proceedBody sq s inp).in_reconnect =
      (if s.in_reconnect && decide (50 < (cycleLoopAcc s inp).samples_taken + 1) then false
       else s.in_reconnect) := by
  unfold proceedBody
  dsimp only
  rw [hct, hvs]
  simp

/-! ### Helper lemmas: the three outcomes of the pre-check -/

theorem calculateCurrent_disconnect (sq : ℚ → ℚ) (s : PMState) (inp : CycleInput)
    (h : preAction s inp = PreAction.disconnect) :
    calculateCurrent sq s inp =
      { s with valid_reading_count := tailValidCount inp.preSamples,
               last_ct_state_change := inp.tState, ct_connected := false,
               current_ac := 0, last_current := 0, last_valid_current := 0,
               in_reconnect := false } := by
  unfold calculateCurrent
  rw [h]

theorem calculateCurrent_reconnect (sq : ℚ → ℚ) (s : PMState) (inp : CycleInput)
    (h : preAction s inp = PreAction.reconnect) :
    calculateCurrent sq s inp =
      resetOffsetFilters
        { s with valid_reading_count := tailValidCount inp.preSamples,
                 last_ct_state_change := inp.tState } inp.resetSamples := by
  unfold calculateCurrent
  rw [h]

theorem calculateCurrent_proceed (sq : ℚ → ℚ) (s : PMState) (inp : CycleInput)
    (h : preAction s inp = PreAction.proceed) :
    calculateCurrent sq s inp = updateEnergy (proceedBody sq s inp) inp.tEnergy := by
  unfold calculateCurrent
  rw [h]

theorem preAction_reconnect_ct_false (s : PMState) (inp : CycleInput)
    (h : preAction s inp = PreAction.reconnect) : s.ct_connected = false := by
  by_contra hc
  rw [Bool.not_eq_false] at hc
  unfold preAction at h
  simp only [hc, Bool.not_true, Bool.and_false, Bool.false_and, Bool.if_false_left] at h
  split at h <;> simp_all

/-! ### Claim theorems -/

/-- C2 (counterexample): the claim says the disconnect threshold is smaller
while Connected and larger while Disconnected; in the code it is 4000 while
Connected and 2000 while Disconnected, so at the concrete pair of states the
claimed ordering fails. -/
theorem c2_threshold_direction_counterexample :
    disconnectThreshold true = 4000 ∧ disconnectThreshold false = 2000 ∧
    ¬ disconnectThreshold true < disconnectThreshold false := by
  norm_num [disconnectThreshold, CT_DISCONNECT_THRESHOLD, CT_HYSTERESIS]

/-- C2 (amended): the threshold applied to the pre-check deviation is
`CT_DISCONNECT_THRESHOLD` (4000) while Connected and smaller by the
hysteresis margin (2000) while Disconnected, and `possibleDisconnect` holds
exactly when the deviation exceeds the state-dependent threshold or the
consecutive-valid count is below `MIN_VALID_COUNT`. -/
theorem c2_threshold_hysteresis :
    disconnectThreshold true = CT_DISCONNECT_THRESHOLD ∧
    disconnectThreshold false = CT_DISCONNECT_THRESHOLD - CT_HYSTERESIS ∧
    disconnectThreshold false < disconnectThreshold true ∧
    ∀ (c : Bool) (qc off : ℚ) (cnt : ℕ),
      possibleDisconnect c qc off cnt = true ↔
        (disconnectThreshold c < |qc - off| ∨ cnt < MIN_VALID_COUNT) := by
  refine ⟨rfl, rfl,
    by norm_num [disconnectThreshold, CT_DISCONNECT_THRESHOLD, CT_HYSTERESIS], ?_⟩
  intro c qc off cnt
  simp [possibleDisconnect]

/-- C3 (counterexample): with previous smoothed current 0 and new reading 1,
the Reconnecting blend yields 0.02 while the steady blend yields 0.05, so
the Reconnecting coefficient gives LESS weight to the new reading, not more
as the claim states. -/
theorem c3_reconnect_blend_counterexample :
    smoothCurrent true 0 1 = 2/100 ∧ smoothCurrent false 0 1 = 5/100 ∧
    smoothCurrent true 0 1 < smoothCurrent false 0 1 := by
  norm_num [smoothCurrent, SMOOTHING_FACTOR]

/-- C3 (amended): a validated cycle blends the new estimate exponentially
into the smoothed current, but the Reconnecting coefficient (0.02 on the new
reading) is SLOWER than the steady-state coefficient (0.05): the steady
blend always sits 3/100·(new − last) closer to the new reading. -/
theorem c3_reconnect_blend_slower :
    (∀ l n : ℚ, smoothCurrent true l n = l * (98/100) + n * (2/100)) ∧
    (∀ l n : ℚ, smoothCurrent false l n = l * (95/100) + n * (5/100)) ∧
    (∀ l n : ℚ, smoothCurrent false l n - smoothCurrent true l n = (3/100) * (n - l)) := by
  refine ⟨fun l n => by simp [smoothCurrent],
          fun l n => by norm_num [smoothCurrent, SMOOTHING_FACTOR],
          fun l n => by simp [smoothCurrent, SMOOTHING_FACTOR]; ring⟩

/-- C6: the offset reset accepts iff the 50-sample batch average lies in
[1500, 2500] and the trailing consecutive-valid count is at least
`MIN_VALID_COUNT`; on acceptance both offset filters are hard-set to the
average and the state becomes Connected with the Reconnecting transient
armed; on rejection the prior offsets are retained and the state is marked
Disconnected. -/
theorem c6_offset_reset (s : PMState) (samples : List ℤ) :
    ((resetOffsetFilters s samples).ct_connected = true ↔
      (1500 ≤ resetQuickOffset samples ∧ resetQuickOffset samples ≤ 2500 ∧
       MIN_VALID_COUNT ≤ tailValidCount samples)) ∧
    ((resetOffsetFilters s samples).ct_connected = true →
      (resetOffsetFilters s samples).filtered_offset = resetQuickOffset samples ∧
      (resetOffsetFilters s samples).fast_offset = resetQuickOffset samples ∧
      (resetOffsetFilters s samples).in_reconnect = true) ∧
    ((resetOffsetFilters s samples).ct_connected = false →
      (resetOffsetFilters s samples).filtered_offset = s.filtered_offset ∧
      (resetOffsetFilters s samples).fast_offset = s.fast_offset) := by
  unfold resetOffsetFilters
  dsimp only
  split
  · next hcond => simp [hcond]
  · next hcond => simp [hcond]

/-- C6 (witness): a mid-scale batch of fifty readings of 2000 is accepted
and arms the reconnect transient. -/
theorem c6_offset_reset_witness :
    (resetOffsetFilters (initState 1) c6Samples).ct_connected = true ∧
    (resetOffsetFilters (initState 1) c6Samples).in_reconnect = true ∧
    (resetOffsetFilters (initState 1) c6Samples).filtered_offset = resetQuickOffset c6Samples := by
  have hcond : 1500 ≤ resetQuickOffset c6Samples ∧ resetQuickOffset c6Samples ≤ 2500 ∧
      MIN_VALID_COUNT ≤ tailValidCount c6Samples := by
    refine ⟨?_, ?_, ?_⟩
    · norm_num [resetQuickOffset, c6Samples, sum_replicate_int, RESET_SAMPLES]
    · norm_num [resetQuickOffset, c6Samples, sum_replicate_int, RESET_SAMPLES]
    · have h50 : tailValidCount c6Samples = 50 := tailValidCount_replicate_valid 2000 50 (by decide)
      rw [h50]
      norm_num [MIN_VALID_COUNT]
  have h := c6_offset_reset (initState 1) c6Samples
  have hct := h.1.mpr hcond
  exact ⟨hct, (h.2.1 hct).2.2, (h.2.1 hct).1⟩

/-- C7: one energy-accumulation step over an elapsed interval of T
milliseconds adds exactly `power × T / 3 600 000 000` kWh, and the total is
non-decreasing whenever the recomputed power is non-negative. -/
theorem c7_energy_accumulation (s : PMState) (T now : ℕ)
    (h : now = s.last_energy_update + T) :
    (updateEnergy s now).energy_kwh = s.energy_kwh + powerOf s * (T : ℚ) / 3600000000 ∧
    (0 ≤ powerOf s → s.energy_kwh ≤ (updateEnergy s now).energy_kwh) := by
  have hT : ((now - s.last_energy_update : ℕ) : ℚ) = (T : ℚ) := by
    subst h
    rw [Nat.add_sub_cancel_left]
  constructor
  · rw [updateEnergy_energy_kwh, hT]
    simp only [WH_TO_KWH]
    ring
  · intro hp
    rw [updateEnergy_energy_kwh, hT]
    have h0 : 0 ≤ powerOf s * (T : ℚ) / 3600000 * WH_TO_KWH := by
      apply mul_nonneg
      · exact div_nonneg (mul_nonneg hp (Nat.cast_nonneg T)) (by norm_num)
      · norm_num [WH_TO_KWH]
    linarith

/-- C7 (witness): 6 W for one hour accumulates 6/1000 kWh and does not
decrease the ledger. -/
theorem c7_energy_accumulation_witness :
    (updateEnergy c7State 3600100).energy_kwh =
      c7State.energy_kwh + powerOf c7State * ((3600000 : ℕ) : ℚ) / 3600000000 ∧
    c7State.energy_kwh ≤ (updateEnergy c7State 3600100).energy_kwh := by
  have h := c7_energy_accumulation c7State 3600000 3600100 (by norm_num [c7State, initState])
  exact ⟨h.1, h.2 (by norm_num [powerOf, c7State, initState])⟩

/-- C9 (counterexample): class PowerMonitor declares no public resetEnergy
member, so the operation the claim describes does not exist. -/
theorem c9_no_resetEnergy_counterexample : "resetEnergy" ∉ publicMembers := by
  simp [publicMembers]

/-- C9 (amended): the public interface offers no way to reset the energy
ledger: resetEnergy is not among the public members, and the one mutating
cycle operation `update` never decreases the accumulated energy while the
recomputed power is non-negative. -/
theorem c9_no_external_energy_reset :
    "resetEnergy" ∉ publicMembers ∧
    ∀ (sq : ℚ → ℚ) (s : PMState) (vs : List ℕ) (inp : CycleInput),
      0 ≤ (update sq s vs inp).power_w →
      getEnergyKWh s ≤ getEnergyKWh (update sq s vs inp) := by
  constructor
  · simp [publicMembers]
  · intro sq s vs inp hp
    unfold update at hp ⊢
    unfold getEnergyKWh
    cases hpa : preAction (sampleVoltage s vs) inp
    case disconnect =>
        rw [calculateCurrent_disconnect _ _ _ hpa]
        simp
    case reconnect =>
        rw [calculateCurrent_reconnect _ _ _ hpa, resetOffsetFilters_energy_kwh]
        simp
    case proceed =>
        rw [calculateCurrent_proceed _ _ _ hpa] at hp ⊢
        rw [updateEnergy_energy_kwh, proceedBody_energy_kwh, sampleVoltage_energy_kwh]
        rw [updateEnergy_power_w] at hp
        have h0 : 0 ≤ powerOf (proceedBody sq (sampleVoltage s vs) inp) *
            ((inp.tEnergy - (proceedBody sq (sampleVoltage s vs) inp).last_energy_update : ℕ) : ℚ)
            / 3600000 * WH_TO_KWH := by
          apply mul_nonneg
          · exact div_nonneg (mul_nonneg hp (Nat.cast_nonneg _)) (by norm_num)
          · norm_num [WH_TO_KWH]
        linarith

/-- C4: Disconnected-with-zero-current is preserved by every measurement
cycle: if a Disconnected state exposes current 0 and smoothed current 0,
then after any further cycle that leaves the monitor Disconnected (i.e.
until a reconnect is accepted) both still read exactly 0; the disconnect
transition itself establishes the zeros. -/
theorem c4_disconnected_forces_zero (sq : ℚ → ℚ) (s : PMState) (inp : CycleInput)
    (h : s.ct_connected = false → getCurrentAC s = 0 ∧ s.last_current = 0) :
    (calculateCurrent sq s inp).ct_connected = false →
      getCurrentAC (calculateCurrent sq s inp) = 0 ∧
      (calculateCurrent sq s inp).last_current = 0 := by
  unfold getCurrentAC at h ⊢
  cases hpa : preAction s inp
  case disconnect =>
      rw [calculateCurrent_disconnect _ _ _ hpa]
      intro _
      exact ⟨rfl, rfl⟩
  case reconnect =>
      rw [calculateCurrent_reconnect _ _ _ hpa]
      have hct := preAction_reconnect_ct_false s inp hpa
      obtain ⟨h1, h2⟩ := h hct
      intro _
      rw [resetOffsetFilters_current_ac, resetOffsetFilters_last_current]
      exact ⟨h1, h2⟩
  case proceed =>
      rw [calculateCurrent_proceed _ _ _ hpa]
      intro hctf
      rw [updateEnergy_ct_connected, proceedBody_ct_connected] at hctf
      rw [updateEnergy_current_ac, updateEnergy_last_current]
      exact proceedBody_zero_of_disconnected sq s inp hctf

/-- C4 (witness): a disconnected monitor with zeroed current stays at
exactly 0 through a further cycle that keeps it disconnected. -/
theorem c4_disconnected_forces_zero_witness :
    getCurrentAC (calculateCurrent (fun q => q) c4State c4Input) = 0 ∧
    (calculateCurrent (fun q => q) c4State c4Input).last_current = 0 := by
  have hc : tailValidCount (List.replicate 20 (0 : ℤ)) = 0 :=
    tailValidCount_replicate_invalid 0 19 (by decide)
  have hpa : preAction c4State c4Input = PreAction.proceed := by
    unfold preAction possibleDisconnect ctStateChangeOK quickCheck
    norm_num [c4State, c4Input, initState, hc, sum_replicate_int, MIN_VALID_COUNT,
      disconnectThreshold, CT_DISCONNECT_THRESHOLD, CT_HYSTERESIS, PRE_SAMPLES]
  apply c4_disconnected_forces_zero (fun q => q) c4State c4Input
  · intro _
    exact ⟨rfl, rfl⟩
  · rw [calculateCurrent_proceed _ _ _ hpa, updateEnergy_ct_connected, proceedBody_ct_connected]
    rfl

/-- C10: when the slow filtered offset lies in the reset-acceptance band
[1500, 2500], no 20-sample batch of 12-bit ADC readings can push the
pre-check deviation past the Connected threshold 4000, so while Connected a
`possibleDisconnect` verdict can only come from the consecutive-valid count
dropping below `MIN_VALID_COUNT`. -/
theorem c10_midscale_band_precheck (off : ℚ) (pre : List ℤ) (cnt : ℕ)
    (h1 : 1500 ≤ off) (h2 : off ≤ 2500) (hlen : pre.length = PRE_SAMPLES)
    (hb : ∀ x ∈ pre, 0 ≤ x ∧ x ≤ 4095) :
    ¬ disconnectThreshold true < |quickCheck pre - off| ∧
    (possibleDisconnect true (quickCheck pre) off cnt = true → cnt < MIN_VALID_COUNT) := by
  have hthr : disconnectThreshold true = 4000 := by
    norm_num [disconnectThreshold, CT_DISCONNECT_THRESHOLD]
  have h20 : ((PRE_SAMPLES : ℕ) : ℚ) = 20 := by norm_num [PRE_SAMPLES]
  have hsum_le : pre.sum ≤ 81900 := by
    have hs := List.sum_le_card_nsmul pre 4095 (fun x hx => (hb x hx).2)
    rw [hlen] at hs
    simpa [PRE_SAMPLES, nsmul_eq_mul] using hs
  have hsum_ge : (0 : ℤ) ≤ pre.sum := List.sum_nonneg (fun x hx => (hb x hx).1)
  have hq_le : quickCheck pre ≤ 4095 := by
    unfold quickCheck
    rw [h20, div_le_iff₀ (by norm_num : (0 : ℚ) < 20)]
    have hc : (pre.sum : ℚ) ≤ 81900 := by exact_mod_cast hsum_le
    linarith
  have hq_ge : 0 ≤ quickCheck pre := by
    unfold quickCheck
    rw [h20]
    have hc : (0 : ℚ) ≤ (pre.sum : ℚ) := by exact_mod_cast hsum_ge
    positivity
  have habs : |quickCheck pre - off| ≤ 2595 := by
    rw [abs_sub_le_iff]
    constructor <;> linarith
  constructor
  · intro hlt
    rw [hthr] at hlt
    linarith
  · intro hpd
    unfold possibleDisconnect at hpd
    rw [Bool.or_eq_true] at hpd
    rcases hpd with hpd | hpd
    · rw [decide_eq_true_eq, hthr] at hpd
      linarith
    · exact of_decide_eq_true hpd

/-- C10 (witness): with the initial offset 1880 and a 20-sample batch of
mid-scale readings, the amplitude check cannot fire and only the low
valid-count disjunct can flag a disconnect. -/
theorem c10_midscale_band_precheck_witness :
    ¬ disconnectThreshold true < |quickCheck c10Pre - 1880| ∧
    (possibleDisconnect true (quickCheck c10Pre) 1880 0 = true → 0 < MIN_VALID_COUNT) := by
  apply c10_midscale_band_precheck 1880 c10Pre 0
  · norm_num
  · norm_num
  · simp [c10Pre, PRE_SAMPLES]
  · intro x hx
    simp only [c10Pre, List.mem_replicate] at hx
    rw [hx.2]
    constructor <;> norm_num

/-- C8: a cycle that reaches the measurement body and whose main-loop batch
is constant at the effective offset counts zero strong samples, fails signal
validation, and therefore computes current exactly 0 (exposed and
smoothed). -/
theorem c8_flat_batch_zero_current (sq : ℚ → ℚ) (s : PMState) (inp : CycleInput)
    (hpa : preAction s inp = PreAction.proceed)
    (hflat : ∀ x ∈ inp.mainSamples, (x : ℚ) = cycleEffectiveOffset s inp) :
    (cycleLoopAcc s inp).valid_samples = 0 ∧
    getCurrentAC (calculateCurrent sq s inp) = 0 ∧
    (calculateCurrent sq s inp).last_current = 0 := by
  have hv : (cycleLoopAcc s inp).valid_samples = 0 := by
    unfold cycleLoopAcc runCycleLoop
    exact cycleLoop_valid_of_flat _ _ _
      (fun x hx => by rw [hflat x hx, sub_self]; norm_num [MIN_SQUARED_ADC])
  have hvs : validSignal (cycleLoopAcc s inp) = false := by
    unfold validSignal
    rw [hv]
    norm_num [MIN_VALID_SAMPLES]
  refine ⟨hv, ?_, ?_⟩
  · rw [calculateCurrent_proceed _ _ _ hpa]
    unfold getCurrentAC
    rw [updateEnergy_current_ac]
    exact (proceedBody_zero_of_invalid sq s inp hvs).1
  · rw [calculateCurrent_proceed _ _ _ hpa, updateEnergy_last_current]
    exact (proceedBody_zero_of_invalid sq s inp hvs).2

/-- C8 (witness): with both offset filters at 2000 and every batch constant
at 2000, the cycle proceeds, counts no strong sample and reads current 0. -/
theorem c8_flat_batch_zero_current_witness :
    (cycleLoopAcc c8State c8Input).valid_samples = 0 ∧
    getCurrentAC (calculateCurrent (fun q => q) c8State c8Input) = 0 ∧
    (calculateCurrent (fun q => q) c8State c8Input).last_current = 0 := by
  have heff : cycleEffectiveOffset c8State c8Input = 2000 := by
    unfold cycleEffectiveOffset updateOffsetFilters effectiveBlend
    norm_num [c8State, c8Input, initState, sum_replicate_int, OFFSET_SAMPLES,
      FAST_FILTER, SLOW_FILTER]
  have hc : tailValidCount (List.replicate 20 (2000 : ℤ)) = 20 :=
    tailValidCount_replicate_valid 2000 20 (by decide)
  have hpa : preAction c8State c8Input = PreAction.proceed := by
    unfold preAction possibleDisconnect ctStateChangeOK quickCheck
    norm_num [c8State, c8Input, initState, hc, sum_replicate_int, MIN_VALID_COUNT,
      disconnectThreshold, CT_DISCONNECT_THRESHOLD, PRE_SAMPLES]
  apply c8_flat_batch_zero_current (fun q => q) c8State c8Input hpa
  intro x hx
  rw [heff]
  simp only [c8Input, List.mem_replicate] at hx
  rw [hx.2]
  norm_num

/-- C1: in a Reconnecting state, already the FIRST cycle that passes signal
validation clears the reconnect transient, because the exit test
`++samples_taken > 50` reuses the cycle's sample counter (1480 after the
main loop), not a count of validated cycles; the validated branch ran, as
the updated `last_valid_time` shows, and `in_reconnect` flips to false. -/
theorem c1_reconnect_exits_after_one_cycle :
    c1State.in_reconnect = true ∧
    (calculateCurrent (fun q => q) c1State c1Input).last_valid_time = c1Input.tValid ∧
    (calculateCurrent (fun q => q) c1State c1Input).in_reconnect = false := by
  have hc : tailValidCount (List.replicate 20 (2000 : ℤ)) = 20 :=
    tailValidCount_replicate_valid 2000 20 (by decide)
  have hpa : preAction c1State c1Input = PreAction.proceed := by
    unfold preAction possibleDisconnect ctStateChangeOK quickCheck
    norm_num [c1State, c1Input, initState, hc, sum_replicate_int, MIN_VALID_COUNT,
      disconnectThreshold, CT_DISCONNECT_THRESHOLD, PRE_SAMPLES]
  have heff : cycleEffectiveOffset c1State c1Input = 2000 := by
    unfold cycleEffectiveOffset updateOffsetFilters effectiveBlend
    norm_num [c1State, c1Input, initState, sum_replicate_int, OFFSET_SAMPLES]
  have hmax : preMax c1Input.preSamples = 2000 := by
    have h1 : (List.replicate 20 (2000 : ℤ)).foldl max 0 = max 0 2000 :=
      foldl_max_replicate 2000 0 19
    simp only [c1Input]
    unfold preMax
    rw [h1]
    decide
  have hmin : preMin c1Input.preSamples = 2000 := by
    have h1 : (List.replicate 20 (2000 : ℤ)).foldl min 4095 = min 4095 2000 :=
      foldl_min_replicate 2000 4095 19
    simp only [c1Input]
    unfold preMin
    rw [h1]
    decide
  have h19 : MIN_SQUARED_ADC < (((1900 : ℤ) : ℚ) - 2000) * (((1900 : ℤ) : ℚ) - 2000) := by
    norm_num [MIN_SQUARED_ADC]
  have h21 : MIN_SQUARED_ADC < (((2100 : ℤ) : ℚ) - 2000) * (((2100 : ℤ) : ℚ) - 2000) := by
    norm_num [MIN_SQUARED_ADC]
  have hacc : runCycleLoop 2000 2000 2000 c1Input.mainSamples =
      (⟨14800000, 1480, 1480, 2100, 1900⟩ : CycleAcc) := by
    simp only [c1Input]
    unfold runCycleLoop
    rw [List.foldl_append]
    rw [show (740 : ℕ) = 739 + 1 from rfl]
    rw [foldl_cycleStep_replicate_strong 2000 1900 h19 739]
    rw [foldl_cycleStep_replicate_strong 2000 2100 h21 739]
    simp only [CycleAcc.mk.injEq]
    refine ⟨by norm_num, by norm_num, by norm_num, by decide, by decide⟩
  have hvs : validSignal (⟨14800000, 1480, 1480, 2100, 1900⟩ : CycleAcc) = true := by
    unfold validSignal
    norm_num [MIN_VALID_SAMPLES, MIN_PEAK_TO_PEAK, MIN_PCT_VALID_SAMPLES]
  have hvs2 : validSignal (cycleLoopAcc c1State c1Input) = true := by
    unfold cycleLoopAcc
    rw [heff, hmax, hmin, hacc]
    exact hvs
  have hbr := proceedBody_valid_branch (fun q => q) c1State c1Input rfl hvs2
  refine ⟨rfl, ?_, ?_⟩
  · rw [calculateCurrent_proceed _ _ _ hpa, updateEnergy_last_valid_time, hbr.1]
  · rw [calculateCurrent_proceed _ _ _ hpa, updateEnergy_in_reconnect, hbr.2]
    unfold cycleLoopAcc
    rw [heff, hmax, hmin, hacc]
    simp [c1State, initState]

/-- C5 (counterexample): a cycle in which the disconnect transition fires
returns before `updateEnergy()`: the energy timestamp keeps its old value 7
instead of advancing to the cycle's clock reading 9999, and the stale
`power_w` 5 is not recomputed. -/
theorem c5_transition_skips_energy_counterexample :
    c5State.ct_connected = true ∧
    (update (fun q => q) c5State c5Volt c5Input).ct_connected = false ∧
    (update (fun q => q) c5State c5Volt c5Input).last_energy_update =
      c5State.last_energy_update ∧
    (update (fun q => q) c5State c5Volt c5Input).power_w = c5State.power_w ∧
    c5State.last_energy_update ≠ c5Input.tEnergy := by
  have hc : tailValidCount (List.replicate 20 (0 : ℤ)) = 0 :=
    tailValidCount_replicate_invalid 0 19 (by decide)
  have hpa : preAction (sampleVoltage c5State c5Volt) c5Input = PreAction.disconnect := by
    rw [preAction_sampleVoltage]
    unfold preAction possibleDisconnect ctStateChangeOK quickCheck
    norm_num [c5State, c5Input, initState, hc, sum_replicate_int, MIN_VALID_COUNT,
      disconnectThreshold, CT_DISCONNECT_THRESHOLD, CT_HYSTERESIS, PRE_SAMPLES,
      CT_STATE_DEBOUNCE]
  refine ⟨rfl, ?_, ?_, ?_, by norm_num [c5State, initState, c5Input]⟩
  · rw [update, calculateCurrent_disconnect _ _ _ hpa]
  · rw [update, calculateCurrent_disconnect _ _ _ hpa]
    rfl
  · rw [update, calculateCurrent_disconnect _ _ _ hpa]
    rfl

/-- C5 (amended): `update()` always samples voltage and runs the current
pipeline, but performs the energy-accumulation step only on cycles whose
pre-check proceeds into the measurement body (no disconnect/reconnect early
return); on those cycles it recomputes `power_w` from the fresh voltage and
current and advances the energy total and timestamp. -/
theorem c5_energy_step_on_nontransition (sq : ℚ → ℚ) (s : PMState) (vs : List ℕ)
    (inp : CycleInput) (hpa : preAction (sampleVoltage s vs) inp = PreAction.proceed) :
    (update sq s vs inp).last_energy_update = inp.tEnergy ∧
    (update sq s vs inp).power_w = powerOf (update sq s vs inp) ∧
    (update sq s vs inp).energy_kwh =
      s.energy_kwh + (update sq s vs inp).power_w *
        ((inp.tEnergy - s.last_energy_update : ℕ) : ℚ) / 3600000000 := by
  rw [update, calculateCurrent_proceed _ _ _ hpa]
  refine ⟨updateEnergy_last_energy_update _ _, rfl, ?_⟩
  rw [updateEnergy_energy_kwh, updateEnergy_power_w, proceedBody_energy_kwh,
      sampleVoltage_energy_kwh, proceedBody_last_energy_update,
      sampleVoltage_last_energy_update]
  simp only [WH_TO_KWH]
  ring

/-- C5 (witness for the amended claim): a quiet non-transition cycle stamps
the energy timestamp with the cycle's clock reading. -/
theorem c5_energy_step_on_nontransition_witness :
    (update (fun q => q) c5wState c5wVolt c5wInput).last_energy_update = 777 := by
  have hc : tailValidCount (List.replicate 20 (1880 : ℤ)) = 20 :=
    tailValidCount_replicate_valid 1880 20 (by decide)
  have hpa : preAction (sampleVoltage c5wState c5wVolt) c5wInput = PreAction.proceed := by
    rw [preAction_sampleVoltage]
    unfold preAction possibleDisconnect ctStateChangeOK quickCheck
    norm_num [c5wState, c5wInput, initState, hc, sum_replicate_int, MIN_VALID_COUNT,
      disconnectThreshold, CT_DISCONNECT_THRESHOLD, PRE_SAMPLES]
  exact (c5_energy_step_on_nontransition (fun q => q) c5wState c5wVolt c5wInput hpa).1

/-- C9 (witness for the amended claim): a quiet cycle from the initial state
leaves the ledger unchanged, hence not decreased. -/
theorem c9_no_external_energy_reset_witness :
    getEnergyKWh c4State ≤ getEnergyKWh (update (fun q => q) c4State [] c4Input) := by
  have hc : tailValidCount (List.replicate 20 (0 : ℤ)) = 0 :=
    tailValidCount_replicate_invalid 0 19 (by decide)
  have hpa : preAction (sampleVoltage c4State []) c4Input = PreAction.proceed := by
    rw [preAction_sampleVoltage]
    unfold preAction possibleDisconnect ctStateChangeOK quickCheck
    norm_num [c4State, c4Input, initState, hc, sum_replicate_int, MIN_VALID_COUNT,
      disconnectThreshold, CT_DISCONNECT_THRESHOLD, CT_HYSTERESIS, PRE_SAMPLES]
  apply c9_no_external_energy_reset.2
  rw [update, calculateCurrent_proceed _ _ _ hpa, updateEnergy_power_w]
  unfold proceedBody
  dsimp only
  norm_num [powerOf, c4State, initState]

end PowerMonitor
